import Mathlib

/-!
Shallow embedding of the mula scheduler core of nl-kat-coordination:
the `BoefjeRanker.rank` scoring function (scheduler/rankers/boefje.py),
the `Scheduler` persistence hooks `post_push`/`post_pop` and the batch /
timeout push operations (scheduler/schedulers/scheduler.py), and the
paginated object fetch of the Octopoes connector
(scheduler/connectors/services/octopoes.py).

Machine conventions of the embedding:
* timestamps are integers counting seconds since the epoch (the Python
  code works with `datetime` values; all comparisons in the modelled code
  happen at whole-second granularity);
* Python's `timedelta.seconds` attribute (the normalized seconds
  component, always in `[0, 86400)`, NOT the total duration) is modelled
  by `tdSeconds`, using `Int.emod`, which agrees with Python's `%` for a
  positive modulus;
* Python's float division in the ranker is modelled as exact division in
  `ℚ` and `int(...)` (truncation toward zero) as `pyInt`; on every input
  the ranker can reach, the float result is far enough from an integer
  boundary that exact rational arithmetic and IEEE doubles truncate to
  the same integer;
* the Task/Job store is external to the scheduler (consumed through a
  CRUD contract); it is modelled as an in-memory reference store, and a
  `FailSpec` records which store call sites raise, mirroring the
  try/except structure of `post_push`/`post_pop` call site by call site.
-/

namespace NLKat

/-- `models.TaskStatus` (the statuses the scheduler core writes). -/
inductive TaskStatus where
  | pending
  | queued
  | dispatched
  | running
  | completed
  | failed
deriving DecidableEq, Repr

/-- `models.PrioritizedItem`: queue-entry identity, dedup hash, priority.
The opaque payload (`data`) plays no role in the modelled operations. -/
structure PrioritizedItem where
  id : Nat
  hash : Option String
  priority : Int
deriving DecidableEq, Repr

/-- `models.Task` as `post_push`/`post_pop` construct and update it. -/
structure Task where
  id : Nat
  scheduler_id : String
  task_type : String
  p_item : PrioritizedItem
  status : TaskStatus
  job_id : Option Nat
  created_at : Int
  modified_at : Int
deriving DecidableEq, Repr

/-- `models.Job` as `post_push` constructs and updates it. -/
structure Job where
  id : Nat
  scheduler_id : String
  hash : String
  enabled : Bool
  p_item : PrioritizedItem
  created_at : Int
  modified_at : Int
deriving DecidableEq, Repr

/-- Python's `timedelta.seconds` attribute for a delta of `t` whole
seconds: the normalized seconds component `t mod 86400`, always in
`[0, 86400)` (`timedelta(seconds=-5).seconds == 86395`). `Int.emod`
agrees with Python's floor-mod for the positive modulus `86400`. -/
def tdSeconds (t : Int) : Int := t % 86400

/-- Python's `int(...)` on a rational value: truncation toward zero. -/
def pyInt (q : ℚ) : Int := if q < 0 then -⌊-q⌋ else ⌊q⌋

namespace BoefjeRanker

/-- `BoefjeRanker.MAX_PRIORITY`. -/
def MAX_PRIORITY : Int := 1000

/-- `BoefjeRanker.MAX_DAYS`. -/
def MAX_DAYS : Int := 7

/-- `MAX_DAYS * (60 * 60 * 24)` as computed in `rank`. -/
def max_days_in_seconds : Int := MAX_DAYS * (60 * 60 * 24)

/-- A prior execution as returned by `task_store.get_tasks_by_hash`
(most recent first); `rank` only reads `modified_at` of the head.  The
loop over prior tasks in the source only logs durations and Octopoes
child/finding counts and does not contribute to the returned value, so
it is not modelled. -/
structure PriorTask where
  modified_at : Int
deriving DecidableEq, Repr

/-- `BoefjeRanker.rank` (scheduler/rankers/boefje.py).  `now` is the
current time, `grace_period` the configured
`pq_populate_grace_period` in seconds, `prior_tasks` the store's answer
for the task's hash.  Faithful to the source, including its use of the
`.seconds` attribute (`tdSeconds`) on the elapsed-time delta. -/
def rank (now grace_period : Int) (prior_tasks : List PriorTask) : Int :=
  match prior_tasks with
  | [] => 2
  | pt :: _ =>
    let time_since_grace_period : Int := tdSeconds ((now - pt.modified_at) - grace_period)
    if time_since_grace_period < 0 then -1
    else if time_since_grace_period ≥ max_days_in_seconds then 3
    else pyInt (3 + ((MAX_PRIORITY : ℚ) - 3) * (1 - (time_since_grace_period : ℚ) / (max_days_in_seconds : ℚ)))

end BoefjeRanker

/-! ## The Task/Job store and the Scheduler persistence hooks

The store itself is an external collaborator (§6 of the spec: a CRUD
contract).  It is modelled as an in-memory reference store: tasks and
jobs are lists, `create_job` assigns the next fresh id.  Which call can
raise, and what `post_push`/`post_pop` do then, follows the try/except
structure of scheduler/schedulers/scheduler.py call site by call site,
recorded in a `FailSpec`. -/

/-- The reference Task/Job store state. -/
structure Store where
  tasks : List Task
  jobs : List Job
  next_job_id : Nat
deriving DecidableEq, Repr

namespace Store

/-- `task_store.get_task_by_id`: the task with the given id, if any. -/
def get_task_by_id (s : Store) (i : Nat) : Option Task :=
  s.tasks.find? (fun t => t.id == i)

/-- `task_store.create_task`: appends a new task row. -/
def create_task (s : Store) (t : Task) : Store :=
  { s with tasks := s.tasks ++ [t] }

/-- `task_store.update_task`: replaces every task row with the same id. -/
def update_task (s : Store) (t : Task) : Store :=
  { s with tasks := s.tasks.map (fun u => if u.id == t.id then t else u) }

/-- `job_store.get_job_by_hash`: the job with the given hash, if any. -/
def get_job_by_hash (s : Store) (h : String) : Option Job :=
  s.jobs.find? (fun j => j.hash == h)

/-- `job_store.create_job`: appends a new job row under a fresh id and
returns it (the Python store returns the persisted row). -/
def create_job (s : Store) (j : Job) : Store × Job :=
  let j := { j with id := s.next_job_id }
  ({ s with jobs := s.jobs ++ [j], next_job_id := s.next_job_id + 1 }, j)

/-- `job_store.update_job`: replaces every job row with the same id. -/
def update_job (s : Store) (j : Job) : Store :=
  { s with jobs := s.jobs.map (fun u => if u.id == j.id then j else u) }

/-- The number of task rows carrying a given id. -/
def countTasksWithId (s : Store) (i : Nat) : Nat :=
  (s.tasks.filter (fun t => t.id == i)).length

end Store

/-- The store call sites of `Scheduler.post_push` and
`Scheduler.post_pop`, in source order. -/
inductive CallSite where
  | get_task_by_id
  | update_task_existing
  | create_task
  | get_job_by_hash
  | create_job
  | update_job
  | update_task_link
  | pop_get_task_by_id
  | pop_update_task
deriving DecidableEq, Repr

/-- Which store call sites raise during one `post_push`/`post_pop`
invocation, and whether `create_task` returns `None` (the source checks
for that separately from an exception). -/
structure FailSpec where
  raises : CallSite → Bool
  create_task_returns_none : Bool

/-- The failure-free store behaviour. -/
def noFail : FailSpec := ⟨fun _ => false, false⟩

/-- The tail of `post_push` shared by the job-found and job-created
paths (scheduler.py lines 165-195): re-enable a disabled job, persist
it (failure caught: log and return), link the task to the job and
persist the task (failure caught: log).  A caught failure leaves the
store as it was before the failing call. -/
def post_push_finish (F : FailSpec) (s : Store) (task_db : Task) (job_db : Job) :
    Except CallSite Store :=
  let job_db := if !job_db.enabled then { job_db with enabled := true } else job_db
  if F.raises .update_job then .ok s else
  let s1 := s.update_job job_db
  let task_db := { task_db with job_id := some job_db.id }
  if F.raises .update_task_link then .ok s1 else
  .ok (s1.update_task task_db)

/-- The Task record `post_push` constructs at its top (scheduler.py
lines 106-114): the item's id, `status = QUEUED`, no job link, both
timestamps the current time. -/
def freshTask (scheduler_id item_type : String) (now : Int) (p_item : PrioritizedItem) : Task :=
  { id := p_item.id, scheduler_id := scheduler_id, task_type := item_type,
    p_item := p_item, status := .queued, job_id := none,
    created_at := now, modified_at := now }

/-- `Scheduler.post_push` (scheduler.py lines 97-195).  `.error c`
models an exception from call site `c` propagating out of `post_push`;
`.ok s` models a normal return with the store in state `s`. -/
def post_push (F : FailSpec) (scheduler_id item_type : String) (now : Int)
    (s : Store) (p_item : PrioritizedItem) : Except CallSite Store :=
  let task : Task := freshTask scheduler_id item_type now p_item
  match p_item.hash with
  | none => .ok s
  | some hsh =>
    if F.raises .get_task_by_id then .error .get_task_by_id else
    match s.get_task_by_id p_item.id with
    | some _ =>
      if F.raises .update_task_existing then .error .update_task_existing
      else .ok (s.update_task task)
    | none =>
      if F.raises .create_task then .error .create_task else
      if F.create_task_returns_none then .ok s else
      let s1 := s.create_task task
      if F.raises .get_job_by_hash then .error .get_job_by_hash else
      match s1.get_job_by_hash hsh with
      | none =>
        if F.raises .create_job then .ok s1 else
        let created := s1.create_job
          { id := 0, scheduler_id := scheduler_id, hash := hsh, enabled := true,
            p_item := p_item, created_at := now, modified_at := now }
        post_push_finish F created.1 task created.2
      | some job_db => post_push_finish F s1 task job_db

/-- `Scheduler.post_pop` (scheduler.py lines 197-219): look the task up
by the item's id; missing task is a logged no-op; otherwise set
`status = DISPATCHED` and persist.  Neither store call is guarded by a
try/except in the source, so a raising call propagates (`.error`). -/
def post_pop (F : FailSpec) (s : Store) (p_item : PrioritizedItem) : Except CallSite Store :=
  if F.raises .pop_get_task_by_id then .error .pop_get_task_by_id else
  match s.get_task_by_id p_item.id with
  | none => .ok s
  | some task =>
    let task1 := { task with status := .dispatched }
    if F.raises .pop_update_task then .error .pop_update_task else
    .ok (s.update_task task1)

/-! ## Queue-facing Scheduler operations

The `PriorityQueue` implementation is another module of the repository;
`scheduler.py` only consumes it.  `push_item_to_queue` re-raises the
three queue errors unchanged after logging, so for the batch operation a
single push is abstracted by its outcome: success, one of the three
queue errors, or any other exception (which includes store errors
escaping `post_push`). -/

/-- The outcome of one `push_item_to_queue` call as observed by
`push_items_to_queue`: success, one of the three absorbed queue errors,
or any other exception. -/
inductive PushOutcome where
  | ok
  | not_allowed
  | queue_full
  | invalid_item
  | other
deriving DecidableEq, Repr

/-- `Scheduler.push_items_to_queue` (scheduler.py lines 284-319):
process the items in order; a `NotAllowedError`, `QueueFullError` or
`InvalidPrioritizedItemError` on one item is logged and skipped
(`continue`), any other exception aborts the batch and propagates
(`.error` with the item it was raised for).  `.ok l` returns the items
that were pushed, in order. -/
def push_items_to_queue {α : Type} (push : α → PushOutcome) : List α → Except α (List α)
  | [] => .ok []
  | x :: xs =>
    match push x with
    | .ok => (push_items_to_queue push xs).map (fun l => x :: l)
    | .not_allowed => push_items_to_queue push xs
    | .queue_full => push_items_to_queue push xs
    | .invalid_item => push_items_to_queue push xs
    | .other => .error x

/-- `Scheduler.is_space_on_queue` (scheduler.py lines 399-407):
`maxsize = 0` means unbounded. -/
def is_space_on_queue (maxsize qsize : Int) : Bool :=
  if maxsize - qsize ≤ 0 && maxsize != 0 then false else true

/-- What `push_item_to_queue_with_timeout` ends with: the push of the
item, or `QueueFullError`. -/
inductive PwtResult where
  | pushed
  | queue_full_error
deriving DecidableEq, Repr

/-- The retry loop of `push_item_to_queue_with_timeout` (scheduler.py
lines 337-346).  `space k` is the value `is_space_on_queue()` returns at
the k-th check (the queue may be drained concurrently between sleeps),
`tries` the loop counter.  Returns the final value of `tries`; `fuel`
bounds the number of condition checks and `none` models a loop still
running after `fuel` checks (with `max_tries = -1` and never any space
the Python loop does not terminate). -/
def pwtLoop (space : Nat → Bool) (max_tries : Int) : Nat → Nat → Option Nat
  | _, 0 => none
  | tries, fuel + 1 =>
    if space tries = false ∧ ((tries : Int) < max_tries ∨ max_tries = -1) then
      pwtLoop space max_tries (tries + 1) fuel
    else some tries

/-- `Scheduler.push_item_to_queue_with_timeout` (scheduler.py lines
321-351): run the retry loop from `tries = 0`; afterwards raise
`QueueFullError` if `tries >= max_tries and max_tries != -1`, otherwise
push the item. -/
def push_item_to_queue_with_timeout (space : Nat → Bool) (max_tries : Int) (fuel : Nat) :
    Option PwtResult :=
  match pwtLoop space max_tries 0 fuel with
  | none => none
  | some tries =>
    if (tries : Int) ≥ max_tries ∧ max_tries ≠ -1 then some .queue_full_error
    else some .pushed

/-! ## The Octopoes connector's paginated fetch -/

/-- An object of the object-graph service. -/
structure OOI where
  reference : String
deriving DecidableEq, Repr

/-- Python's `range(start, stop, step)` for a positive step. -/
def pyRange (start stop step : Nat) : List Nat :=
  (List.range ((stop - start + step - 1) / step)).map (fun i => start + step * i)

/-- The `GET /{org}/objects` endpoint as `get_objects_by_object_types`
consumes it: a reported total `count` and, per `(offset, limit)`
request, the returned page of items. -/
structure ObjectsEndpoint where
  count : Nat
  items : Nat → Nat → List OOI

/-- `Octopoes.get_objects_by_object_types` (octopoes.py lines 17-49):
one request with `offset=0, limit=1` reads the total `count`, then one
request per offset in `range(0, count, 1000)` with `limit=1000`; the
pages are concatenated in order.  The first component is the trace of
`(offset, limit)` requests issued, the second the collected objects. -/
def get_objects_by_object_types (S : ObjectsEndpoint) : List (Nat × Nat) × List OOI :=
  let count := S.count
  let limit := 1000
  let offsets := pyRange 0 count limit
  ((0, 1) :: offsets.map (fun o => (o, limit)),
   offsets.flatMap (fun o => S.items o limit))

end NLKat

section scratch
open NLKat

example :
    post_push noFail "s1" "boefje" 50 ⟨[], [], 0⟩ ⟨7, some "h", 2⟩ =
      .ok ⟨[⟨7, "s1", "boefje", ⟨7, some "h", 2⟩, .queued, some 0, 50, 50⟩],
        [⟨0, "s1", "h", true, ⟨7, some "h", 2⟩, 50, 50⟩], 1⟩ := rfl

example :
    post_push noFail "s1" "boefje" 50 ⟨[], [], 0⟩ ⟨7, none, 2⟩ = .ok ⟨[], [], 0⟩ := rfl

example :
    post_pop noFail ⟨[⟨7, "s1", "b", ⟨7, some "h", 2⟩, .queued, none, 1, 1⟩], [], 0⟩ ⟨7, some "h", 2⟩ =
      .ok ⟨[⟨7, "s1", "b", ⟨7, some "h", 2⟩, .dispatched, none, 1, 1⟩], [], 0⟩ := rfl

-- batch push: skippable errors skipped, `other` aborts
example :
    push_items_to_queue (fun n : Nat => if n = 2 then .queue_full else .ok) [1, 2, 3] =
      .ok [1, 3] := rfl
example :
    push_items_to_queue (fun n : Nat => if n = 2 then .other else .ok) [1, 2, 3] =
      .error 2 := rfl

-- timeout push: with max_tries = 0 it raises even though space is available
example : push_item_to_queue_with_timeout (fun _ => true) 0 1 = some .queue_full_error := rfl
example : push_item_to_queue_with_timeout (fun _ => true) 5 1 = some .pushed := rfl
example : push_item_to_queue_with_timeout (fun _ => false) 2 5 = some .queue_full_error := rfl
example : push_item_to_queue_with_timeout (fun k => k ≥ 1) 5 5 = some .pushed := rfl
example : push_item_to_queue_with_timeout (fun _ => false) (-1) 50 = none := rfl
example : push_item_to_queue_with_timeout (fun k => k ≥ 7) (-1) 50 = some .pushed := rfl

-- pagination
example : pyRange 0 2500 1000 = [0, 1000, 2000] := rfl
example : pyRange 0 0 1000 = [] := rfl
example : pyRange 0 1000 1000 = [0] := rfl
example :
    (get_objects_by_object_types ⟨2500, fun o _ => [⟨toString o⟩]⟩).1 =
      [(0, 1), (0, 1000), (1000, 1000), (2000, 1000)] := rfl

end scratch

namespace NLKat

/-! ## Lemmas about the ranker -/

theorem tdSeconds_nonneg (t : Int) : 0 ≤ tdSeconds t :=
  Int.emod_nonneg t (by decide)

theorem tdSeconds_lt_86400 (t : Int) : tdSeconds t < 86400 :=
  Int.emod_lt_of_pos t (by decide)

/-- On any task with a nonempty execution history, `rank` returns at
least 857: the `.seconds` component is in `[0, 86400)`, so the `-1`
and `3` branches are unreachable and the interpolation line gets an
elapsed value of at most `86399` seconds. -/
theorem rank_cons_ge_857 (now grace : Int) (pt : BoefjeRanker.PriorTask)
    (rest : List BoefjeRanker.PriorTask) :
    857 ≤ BoefjeRanker.rank now grace (pt :: rest) := by
  simp only [BoefjeRanker.rank]
  have hs0 : 0 ≤ tdSeconds ((now - pt.modified_at) - grace) := tdSeconds_nonneg _
  have hs1 : tdSeconds ((now - pt.modified_at) - grace) < 86400 := tdSeconds_lt_86400 _
  set s : Int := tdSeconds ((now - pt.modified_at) - grace) with hsdef
  have hmds : BoefjeRanker.max_days_in_seconds = 604800 := by
    unfold BoefjeRanker.max_days_in_seconds BoefjeRanker.MAX_DAYS; norm_num
  rw [if_neg (by omega : ¬ s < 0), hmds, if_neg (by omega : ¬ s ≥ 604800)]
  have hsq : (s : ℚ) ≤ 86399 := by exact_mod_cast (by omega : s ≤ 86399)
  have hq : (857 : ℚ) ≤ 3 + ((BoefjeRanker.MAX_PRIORITY : ℚ) - 3) * (1 - (s : ℚ) / (604800 : ℚ)) := by
    unfold BoefjeRanker.MAX_PRIORITY
    push_cast
    linarith
  push_cast
  unfold pyInt
  rw [if_neg (by linarith : ¬ (3 + ((BoefjeRanker.MAX_PRIORITY : ℚ) - 3) * (1 - (s : ℚ) / (604800 : ℚ)) < 0))]
  exact Int.le_floor.mpr (by push_cast; linarith)

/-- `rank` is bounded below by 2 on every input: an empty history gives
2 and a nonempty one at least 857. -/
theorem rank_ge_two (now grace : Int) (pts : List BoefjeRanker.PriorTask) :
    2 ≤ BoefjeRanker.rank now grace pts := by
  cases pts with
  | nil => norm_num [BoefjeRanker.rank]
  | cons pt rest => have := rank_cons_ge_857 now grace pt rest; omega

/-- C1 — code bug.  The spec says `rank` returns `-1` for a task still
inside the grace window, but the source computes the elapsed time with
the `timedelta.seconds` attribute (the nonnegative seconds component)
rather than `total_seconds()`, so the `< 0` test can never succeed and
`rank` never returns `-1` on any input: it is always at least 2.
Concretely, a task last modified 1 second ago against a 100-second grace
period (now = 1000, modified_at = 999) gets priority 857 and is
enqueued instead of being held back. -/
theorem rank_grace_period_branch_unreachable :
    (∀ (now grace : Int) (pts : List BoefjeRanker.PriorTask),
        2 ≤ BoefjeRanker.rank now grace pts) ∧
    BoefjeRanker.rank 1000 100 [⟨999⟩] = 857 := by
  refine ⟨rank_ge_two, ?_⟩
  unfold BoefjeRanker.rank tdSeconds BoefjeRanker.max_days_in_seconds
    BoefjeRanker.MAX_PRIORITY BoefjeRanker.MAX_DAYS pyInt
  norm_num

/-- C2 — code bug.  The spec (and the function's own docstring) say a
task whose elapsed time since the grace period reaches `MAX_DAYS`
(604800 seconds) gets priority exactly 3, but the `.seconds` attribute
caps the computed elapsed value below 86400, so the `≥ 604800` test can
never succeed: on every nonempty history `rank` returns at least 857.
Concretely, a task exactly 7 days past its grace period
(now = 604900, modified_at = 0, grace = 100) gets priority 1000 — the
lowest urgency — instead of 3. -/
theorem rank_max_days_branch_unreachable :
    (∀ (now grace : Int) (pt : BoefjeRanker.PriorTask)
        (rest : List BoefjeRanker.PriorTask),
        857 ≤ BoefjeRanker.rank now grace (pt :: rest)) ∧
    BoefjeRanker.rank 604900 100 [⟨0⟩] = 1000 := by
  refine ⟨rank_cons_ge_857, ?_⟩
  unfold BoefjeRanker.rank tdSeconds BoefjeRanker.max_days_in_seconds
    BoefjeRanker.MAX_PRIORITY BoefjeRanker.MAX_DAYS pyInt
  norm_num

/-! ## Lemmas about the store and the persistence hooks -/

theorem update_task_jobs (s : Store) (t : Task) : (s.update_task t).jobs = s.jobs := rfl

theorem update_task_tasks_length (s : Store) (t : Task) :
    (s.update_task t).tasks.length = s.tasks.length := by
  simp [Store.update_task]

/-- Replacing elements without changing a predicate's value keeps the
filtered length. -/
theorem filter_length_map_of_pred {α : Type} (l : List α) (f : α → α) (q : α → Bool)
    (hf : ∀ a, q (f a) = q a) :
    ((l.map f).filter q).length = (l.filter q).length := by
  induction l with
  | nil => rfl
  | cons a l ih =>
    simp only [List.map_cons, List.filter_cons, hf]
    cases hq : q a <;> simp [ih]

theorem countTasksWithId_update_task (s : Store) (t : Task) (i : Nat) :
    (s.update_task t).countTasksWithId i = s.countTasksWithId i := by
  unfold Store.update_task Store.countTasksWithId
  exact filter_length_map_of_pred _ _ _ (fun a => by by_cases h : a.id = t.id <;> simp [h])

theorem countTasksWithId_create_task (s : Store) (t : Task) :
    (s.create_task t).countTasksWithId t.id = s.countTasksWithId t.id + 1 := by
  simp [Store.create_task, Store.countTasksWithId, List.filter_append]

theorem create_task_tasks_length (s : Store) (t : Task) :
    (s.create_task t).tasks.length = s.tasks.length + 1 := by
  simp [Store.create_task]

theorem countTasksWithId_update_job (s : Store) (j : Job) (i : Nat) :
    (s.update_job j).countTasksWithId i = s.countTasksWithId i := rfl

theorem countTasksWithId_create_job (s : Store) (j : Job) (i : Nat) :
    ((s.create_job j).1).countTasksWithId i = s.countTasksWithId i := rfl

theorem update_job_tasks_length (s : Store) (j : Job) :
    (s.update_job j).tasks.length = s.tasks.length := rfl

theorem create_job_tasks_length (s : Store) (j : Job) :
    ((s.create_job j).1).tasks.length = s.tasks.length := rfl

theorem noFail_raises (c : CallSite) : noFail.raises c = false := rfl

theorem get_task_by_id_none_iff (s : Store) (i : Nat) :
    s.get_task_by_id i = none ↔ s.countTasksWithId i = 0 := by
  unfold Store.get_task_by_id Store.countTasksWithId
  rw [List.find?_eq_none, List.length_eq_zero, List.filter_eq_nil_iff]

theorem get_task_by_id_some_of_count (s : Store) (i : Nat)
    (h : s.countTasksWithId i ≠ 0) : ∃ t, s.get_task_by_id i = some t := by
  cases hf : s.get_task_by_id i with
  | none => exact absurd ((get_task_by_id_none_iff s i).mp hf) h
  | some t => exact ⟨t, rfl⟩

/-- The existing-task branch of `post_push` (scheduler.py lines
125-128): with the lookup and update not raising, the stored task row
is overwritten with the freshly constructed record and `post_push`
returns at once. -/
theorem post_push_existing (F : FailSpec) (sid ty : String) (now : Int) (s : Store)
    (p : PrioritizedItem) (hsh : String) (t0 : Task)
    (hh : p.hash = some hsh)
    (hF1 : F.raises .get_task_by_id = false)
    (hF2 : F.raises .update_task_existing = false)
    (hex : s.get_task_by_id p.id = some t0) :
    post_push F sid ty now s p = .ok (s.update_task (freshTask sid ty now p)) := by
  obtain ⟨i, ha, prio⟩ := p
  simp only [PrioritizedItem.hash] at hh
  subst hh
  simp only [post_push, PrioritizedItem.id] at hex ⊢
  rw [hex] at *
  simp [hF1, hF2, hex]

/-- The create branch of `post_push` with a failure-free store: the
result is a normal return whose store carries exactly one more task row
with the item's id (the created row; the job upsert and the task-link
update touch no other task id and create no task row). -/
theorem post_push_create (sid ty : String) (now : Int) (s : Store)
    (p : PrioritizedItem) (hsh : String)
    (hh : p.hash = some hsh)
    (hnone : s.get_task_by_id p.id = none) :
    ∃ s1, post_push noFail sid ty now s p = .ok s1 ∧
      s1.countTasksWithId p.id = s.countTasksWithId p.id + 1 ∧
      s1.tasks.length = s.tasks.length + 1 := by
  obtain ⟨i, ha, prio⟩ := p
  simp only [PrioritizedItem.hash] at hh
  subst hh
  simp only [post_push, PrioritizedItem.id, noFail_raises, Bool.false_eq_true,
    if_false] at hnone ⊢
  rw [hnone]
  cases hjob : (s.create_task (freshTask sid ty now ⟨i, some hsh, prio⟩)).get_job_by_hash hsh with
  | none =>
    simp only [hjob, post_push_finish, noFail_raises, Bool.false_eq_true, if_false]
    refine ⟨_, rfl, ?_, ?_⟩
    · rw [countTasksWithId_update_task, countTasksWithId_update_job, countTasksWithId_create_job]
      exact countTasksWithId_create_task s _
    · rw [update_task_tasks_length, update_job_tasks_length, create_job_tasks_length]
      exact create_task_tasks_length s _
  | some j =>
    simp only [hjob, post_push_finish, noFail_raises, Bool.false_eq_true, if_false]
    refine ⟨_, rfl, ?_, ?_⟩
    · rw [countTasksWithId_update_task, countTasksWithId_update_job]
      exact countTasksWithId_create_task s _
    · rw [update_task_tasks_length, update_job_tasks_length]
      exact create_task_tasks_length s _

/-- C7 — confirmed.  On an item whose hash is `None`, `post_push` logs
and returns before any store call: the store is unchanged (no Task, no
Job written) and nothing is raised, whatever the store's failure
behaviour would have been. -/
theorem post_push_no_hash_no_store_writes (F : FailSpec) (sid ty : String) (now : Int)
    (s : Store) (i : Nat) (prio : Int) :
    post_push F sid ty now s ⟨i, none, prio⟩ = .ok s := rfl

/-- C8 — confirmed.  `post_pop` looks the Task up by the item's id; a
missing Task is a logged no-op (normal return, store untouched), and an
existing Task has its status set to `DISPATCHED` and is persisted. -/
theorem post_pop_lookup_spec (s : Store) (p : PrioritizedItem) :
    post_pop noFail s p =
      match s.get_task_by_id p.id with
      | none => .ok s
      | some t => .ok (s.update_task { t with status := .dispatched }) := by
  unfold post_pop
  simp only [noFail_raises, Bool.false_eq_true, if_false]

/-- C10 — confirmed.  When a Task with the item's id already exists,
`post_push` overwrites the stored row with the freshly constructed
record — status reset to `QUEUED`, both timestamps the current time,
job link cleared — and returns at once: jobs and the job-id counter are
untouched, so no Job is created, enabled or linked. -/
theorem post_push_existing_overwrites_and_skips_job (sid ty : String) (now : Int)
    (s : Store) (p : PrioritizedItem) (hsh : String) (t0 : Task)
    (hh : p.hash = some hsh) (hex : s.get_task_by_id p.id = some t0) :
    post_push noFail sid ty now s p = .ok (s.update_task (freshTask sid ty now p)) ∧
    (s.update_task (freshTask sid ty now p)).jobs = s.jobs ∧
    (s.update_task (freshTask sid ty now p)).next_job_id = s.next_job_id ∧
    (freshTask sid ty now p).status = .queued ∧
    (freshTask sid ty now p).created_at = now ∧
    (freshTask sid ty now p).modified_at = now :=
  ⟨post_push_existing noFail sid ty now s p hsh t0 hh rfl rfl hex, rfl, rfl, rfl, rfl, rfl⟩

theorem post_push_existing_overwrites_and_skips_job_witness :
    post_push noFail "s1" "boefje" 9
        ⟨[⟨7, "s1", "boefje", ⟨7, some "h", 2⟩, .dispatched, some 3, 1, 1⟩], [], 0⟩
        ⟨7, some "h", 2⟩ =
      .ok (Store.update_task
        ⟨[⟨7, "s1", "boefje", ⟨7, some "h", 2⟩, .dispatched, some 3, 1, 1⟩], [], 0⟩
        (freshTask "s1" "boefje" 9 ⟨7, some "h", 2⟩)) :=
  (post_push_existing_overwrites_and_skips_job "s1" "boefje" 9
    ⟨[⟨7, "s1", "boefje", ⟨7, some "h", 2⟩, .dispatched, some 3, 1, 1⟩], [], 0⟩
    ⟨7, some "h", 2⟩ "h"
    ⟨7, "s1", "boefje", ⟨7, some "h", 2⟩, .dispatched, some 3, 1, 1⟩ rfl rfl).1

/-- C3 — confirmed.  With a non-null hash: pushing the same item id
twice leaves exactly one Task row with that id — the first call creates
or updates it, the second finds it and updates it in place
(`update_task` on the fresh record), never appending a second row. -/
theorem post_push_twice_single_task_row (sid ty : String) (now now2 : Int) (s : Store)
    (p : PrioritizedItem) (hsh : String)
    (hh : p.hash = some hsh) (hcnt : s.countTasksWithId p.id ≤ 1) :
    ∃ s1 s2,
      post_push noFail sid ty now s p = .ok s1 ∧
      post_push noFail sid ty now2 s1 p = .ok s2 ∧
      s1.countTasksWithId p.id = 1 ∧
      s2 = s1.update_task (freshTask sid ty now2 p) ∧
      s2.countTasksWithId p.id = 1 ∧
      s2.tasks.length = s1.tasks.length := by
  have step2 : ∀ s1 : Store, s1.countTasksWithId p.id = 1 →
      ∃ s2, post_push noFail sid ty now2 s1 p = .ok s2 ∧
        s2 = s1.update_task (freshTask sid ty now2 p) ∧
        s2.countTasksWithId p.id = 1 ∧ s2.tasks.length = s1.tasks.length := by
    intro s1 hc1
    obtain ⟨t1, hf1⟩ := get_task_by_id_some_of_count s1 p.id (by omega)
    refine ⟨_, post_push_existing noFail sid ty now2 s1 p hsh t1 hh rfl rfl hf1, rfl, ?_, ?_⟩
    · rw [countTasksWithId_update_task]; exact hc1
    · exact update_task_tasks_length _ _
  cases hf : s.get_task_by_id p.id with
  | some t0 =>
    have hne : s.countTasksWithId p.id ≠ 0 := by
      intro h0
      rw [← get_task_by_id_none_iff] at h0
      rw [h0] at hf
      exact Option.noConfusion hf
    have h1 : post_push noFail sid ty now s p = .ok (s.update_task (freshTask sid ty now p)) :=
      post_push_existing noFail sid ty now s p hsh t0 hh rfl rfl hf
    have hc1 : (s.update_task (freshTask sid ty now p)).countTasksWithId p.id = 1 := by
      rw [countTasksWithId_update_task]; omega
    obtain ⟨s2, h2, he, hc2, hl⟩ := step2 _ hc1
    exact ⟨_, s2, h1, h2, hc1, he, hc2, hl⟩
  | none =>
    have hc : s.countTasksWithId p.id = 0 := (get_task_by_id_none_iff s p.id).mp hf
    obtain ⟨s1, h1, hcnt1, _⟩ := post_push_create sid ty now s p hsh hh hf
    have hc1 : s1.countTasksWithId p.id = 1 := by omega
    obtain ⟨s2, h2, he, hc2, hl⟩ := step2 s1 hc1
    exact ⟨s1, s2, h1, h2, hc1, he, hc2, hl⟩

theorem post_push_twice_single_task_row_witness :
    ∃ s1 s2,
      post_push noFail "s1" "boefje" 1 ⟨[], [], 0⟩ ⟨7, some "h", 2⟩ = .ok s1 ∧
      post_push noFail "s1" "boefje" 2 s1 ⟨7, some "h", 2⟩ = .ok s2 ∧
      s1.countTasksWithId 7 = 1 ∧
      s2 = s1.update_task (freshTask "s1" "boefje" 2 ⟨7, some "h", 2⟩) ∧
      s2.countTasksWithId 7 = 1 ∧
      s2.tasks.length = s1.tasks.length :=
  post_push_twice_single_task_row "s1" "boefje" 1 2 ⟨[], [], 0⟩ ⟨7, some "h", 2⟩ "h"
    rfl (by decide)

/-- The shared tail of `post_push` never raises: both of its store
calls are wrapped in try/except in the source. -/
theorem post_push_finish_ok (F : FailSpec) (s : Store) (t : Task) (j : Job) :
    ∃ s1, post_push_finish F s t j = .ok s1 := by
  unfold post_push_finish
  cases hu : F.raises .update_job
  · cases hl : F.raises .update_task_link
    · simp only [hu, hl, Bool.false_eq_true, if_false]
      exact ⟨_, rfl⟩
    · simp only [hu, hl, Bool.false_eq_true, if_false, if_true]
      exact ⟨_, rfl⟩
  · simp only [hu, if_true]
    exact ⟨_, rfl⟩

/-- C4 — counterexample to the claim as stated: `post_pop` wraps
neither of its store calls in a try/except, so a raising
`get_task_by_id` propagates out of `post_pop` instead of being logged
and swallowed. -/
theorem post_pop_store_failure_raises :
    post_pop ⟨fun c => c == .pop_get_task_by_id, false⟩ ⟨[], [], 0⟩ ⟨7, some "h", 2⟩ =
      .error .pop_get_task_by_id := rfl

/-- C4 — amended.  Only the `create_job`, `update_job` and final
task-link `update_task` calls of `post_push` are guarded: whatever
those do, `post_push` returns normally as long as the unguarded calls
(`get_task_by_id`, the existing-task `update_task`, `create_task`,
`get_job_by_hash`) do not raise; a raising store call in `post_pop`
propagates to the caller. -/
theorem post_push_guarded_sites_nonfatal (F : FailSpec) (sid ty : String) (now : Int)
    (s : Store) (p : PrioritizedItem)
    (h1 : F.raises .get_task_by_id = false)
    (h2 : F.raises .update_task_existing = false)
    (h3 : F.raises .create_task = false)
    (h4 : F.raises .get_job_by_hash = false) :
    (∃ s1, post_push F sid ty now s p = .ok s1) ∧
    (F.raises .pop_get_task_by_id = true → post_pop F s p = .error .pop_get_task_by_id) := by
  constructor
  · obtain ⟨i, ha, prio⟩ := p
    cases ha with
    | none => exact ⟨s, rfl⟩
    | some hsh =>
      unfold post_push
      simp only [h1, h2, h3, h4, Bool.false_eq_true, if_false]
      cases hf : s.get_task_by_id i with
      | some t0 => exact ⟨_, rfl⟩
      | none =>
        cases hn : F.create_task_returns_none with
        | true => simp [hn]
        | false =>
          simp only [hn, Bool.false_eq_true, if_false]
          cases hjob : (s.create_task (freshTask sid ty now ⟨i, some hsh, prio⟩)).get_job_by_hash hsh with
          | none =>
            simp only [hjob]
            cases hc : F.raises .create_job with
            | true => simp [hc]
            | false =>
              simp only [hc, Bool.false_eq_true, if_false]
              exact post_push_finish_ok F _ _ _
          | some j =>
            simp only [hjob]
            exact post_push_finish_ok F _ _ _
  · intro hpop
    unfold post_pop
    simp [hpop]

theorem post_push_guarded_sites_nonfatal_witness :
    (∃ s1, post_push ⟨fun c => c == .create_job, false⟩ "s1" "boefje" 1 ⟨[], [], 0⟩
        ⟨7, some "h", 2⟩ = .ok s1) ∧
    ((⟨fun c => c == .create_job, false⟩ : FailSpec).raises .pop_get_task_by_id = true →
      post_pop ⟨fun c => c == .create_job, false⟩ ⟨[], [], 0⟩ ⟨7, some "h", 2⟩ =
        .error .pop_get_task_by_id) :=
  post_push_guarded_sites_nonfatal ⟨fun c => c == .create_job, false⟩ "s1" "boefje" 1
    ⟨[], [], 0⟩ ⟨7, some "h", 2⟩ rfl rfl rfl rfl

/-- C5 — confirmed.  `push_items_to_queue` processes the batch in
order: an item whose push raises `NotAllowedError`, `QueueFullError` or
`InvalidPrioritizedItemError` is logged and skipped and processing
continues, while the first item whose push raises anything else aborts
the batch and propagates; the pushed items are exactly those whose push
succeeded. -/
theorem push_items_to_queue_spec {α : Type} (push : α → PushOutcome) (items : List α) :
    push_items_to_queue push items =
      match items.find? (fun x => decide (push x = .other)) with
      | some x => .error x
      | none => .ok (items.filter (fun x => decide (push x = .ok))) := by
  induction items with
  | nil => rfl
  | cons x xs ih =>
    cases hpx : push x with
    | ok =>
      simp only [push_items_to_queue, hpx]
      rw [ih]
      rw [List.find?_cons_of_neg _ (by simp [hpx]), List.filter_cons_of_pos (by simp [hpx])]
      cases hfind : xs.find? (fun x => decide (push x = PushOutcome.other)) <;>
        simp [hfind, Except.map]
    | not_allowed =>
      simp only [push_items_to_queue, hpx]
      rw [ih, List.find?_cons_of_neg _ (by simp [hpx]),
        List.filter_cons_of_neg (by simp [hpx])]
    | queue_full =>
      simp only [push_items_to_queue, hpx]
      rw [ih, List.find?_cons_of_neg _ (by simp [hpx]),
        List.filter_cons_of_neg (by simp [hpx])]
    | invalid_item =>
      simp only [push_items_to_queue, hpx]
      rw [ih, List.find?_cons_of_neg _ (by simp [hpx]),
        List.filter_cons_of_neg (by simp [hpx])]
    | other =>
      simp only [push_items_to_queue, hpx]
      rw [List.find?_cons_of_pos _ (by simp [hpx])]

/-- The retry loop stops exactly at `stop` when every earlier check
keeps looping (no space and the try budget not exhausted) and the check
at `stop` exits (space appeared, or `tries < max_tries` fails with
`max_tries ≠ -1`). -/
theorem pwtLoop_reaches (space : Nat → Bool) (m : Int) :
    ∀ (fuel tries stop : Nat), tries ≤ stop → stop - tries < fuel →
      (∀ j, tries ≤ j → j < stop → (space j = false ∧ ((j : Int) < m ∨ m = -1))) →
      (space stop = true ∨ ¬ (((stop : Int)) < m ∨ m = -1)) →
      pwtLoop space m tries fuel = some stop := by
  intro fuel
  induction fuel with
  | zero => intro tries stop h1 h2 _ _; omega
  | succ fuel ih =>
    intro tries stop h1 h2 hbody hstop
    by_cases hts : tries = stop
    · subst hts
      unfold pwtLoop
      rw [if_neg]
      rcases hstop with hsp | hnp
      · intro ⟨hfalse, _⟩
        rw [hsp] at hfalse
        exact Bool.noConfusion hfalse
      · intro ⟨_, hp⟩
        exact hnp hp
    · have hlt : tries < stop := lt_of_le_of_ne h1 hts
      unfold pwtLoop
      rw [if_pos (hbody tries le_rfl hlt)]
      exact ih (tries + 1) stop (by omega) (by omega)
        (fun j hj1 hj2 => hbody j (by omega) hj2) hstop

/-- C6 — counterexample to the claim as stated: with `max_tries = 0`
the final `tries >= max_tries and max_tries != -1` check is true
immediately, so the call raises `QueueFullError` even though
`is_space_on_queue()` reported space at the very first check and no
retry budget was ever consumed — the item is not pushed. -/
theorem push_with_timeout_zero_max_tries_raises :
    push_item_to_queue_with_timeout (fun _ => true) 0 1 = some .queue_full_error ∧
    (fun _ : Nat => true) 0 = true :=
  ⟨rfl, rfl⟩

/-- C6 — amended.  For `max_tries ≥ 1` the function behaves as the
claim says: it re-checks `is_space_on_queue()` (here `space k` is the
check's answer on attempt `k`), raises `QueueFullError` exactly when
all `max_tries` checks found no space, and pushes the item as soon as a
check finds space; for `max_tries = -1` it retries forever and never
raises `QueueFullError`.  For `max_tries = 0` (and any other negative
value) it raises even when space is available — see the
counterexample.  `fuel` bounds the number of loop iterations modelled;
each hypothesis requires fuel enough for the loop to reach its exit. -/
theorem push_with_timeout_amended (space : Nat → Bool) (n k fuel : Nat) (hn : 1 ≤ n) :
    ((∀ j, j < n → space j = false) → n < fuel →
        push_item_to_queue_with_timeout space (n : Int) fuel = some .queue_full_error) ∧
    (k < n → space k = true → (∀ j, j < k → space j = false) → k < fuel →
        push_item_to_queue_with_timeout space (n : Int) fuel = some .pushed) ∧
    (space k = true → (∀ j, j < k → space j = false) → k < fuel →
        push_item_to_queue_with_timeout space (-1) fuel = some .pushed) ∧
    (push_item_to_queue_with_timeout space (-1) fuel ≠ some .queue_full_error) := by
  refine ⟨?_, ?_, ?_, ?_⟩
  · intro hnos hfuel
    have hl : pwtLoop space (n : Int) 0 fuel = some n :=
      pwtLoop_reaches space (n : Int) fuel 0 n (by omega) (by omega)
        (fun j _ hj => ⟨hnos j hj, Or.inl (by exact_mod_cast hj)⟩)
        (Or.inr (fun hcon => hcon.elim (fun hlt => lt_irrefl _ hlt) (fun heq => by omega)))
    simp only [push_item_to_queue_with_timeout, hl]
    rw [if_pos ⟨le_refl _, by omega⟩]
  · intro hk hsp hbefore hfuel
    have hl : pwtLoop space (n : Int) 0 fuel = some k :=
      pwtLoop_reaches space (n : Int) fuel 0 k (by omega) (by omega)
        (fun j _ hj => ⟨hbefore j hj, Or.inl (by exact_mod_cast lt_trans hj hk)⟩)
        (Or.inl hsp)
    simp only [push_item_to_queue_with_timeout, hl]
    rw [if_neg]
    intro ⟨hge, _⟩
    have hkn : (k : Int) < (n : Int) := by exact_mod_cast hk
    omega
  · intro hsp hbefore hfuel
    have hl : pwtLoop space (-1) 0 fuel = some k :=
      pwtLoop_reaches space (-1) fuel 0 k (by omega) (by omega)
        (fun j _ hj => ⟨hbefore j hj, Or.inr rfl⟩)
        (Or.inl hsp)
    simp only [push_item_to_queue_with_timeout, hl]
    rw [if_neg]
    intro ⟨_, hne⟩
    exact hne rfl
  · cases hloop : pwtLoop space (-1) 0 fuel with
    | none => simp [push_item_to_queue_with_timeout, hloop]
    | some tries =>
      simp only [push_item_to_queue_with_timeout, hloop]
      rw [if_neg (fun h => h.2 rfl)]
      simp

/-- Python's `range(0, len, k)` for positive `k` and `len`: offset `0`
followed by the offsets for the remaining `len - k` elements, shifted
by `k`. -/
theorem pyRange_zero_pos (k len : Nat) (hk : 0 < k) (hl : 0 < len) :
    pyRange 0 len k = 0 :: (pyRange 0 (len - k) k).map (fun o => k + o) := by
  unfold pyRange
  have h1 : len - 0 + k - 1 = (len - 1) + k := by omega
  rw [h1, Nat.add_div_right _ hk]
  have h2 : (len - k - 0 + k - 1) / k = (len - 1) / k := by
    rcases le_or_lt len k with h | h
    · have e0 : len - k = 0 := by omega
      rw [e0]
      have e1 : 0 - 0 + k - 1 = k - 1 := by omega
      rw [e1, Nat.div_eq_of_lt (by omega), Nat.div_eq_of_lt (by omega)]
    · have e1 : len - k - 0 + k - 1 = len - 1 := by omega
      rw [e1]
  rw [h2, List.range_succ_eq_map]
  simp only [List.map_cons, List.map_map, Function.comp]
  congr 1
  apply List.map_congr_left
  intro i _
  simp only [Function.comp_apply, Nat.succ_eq_add_one]
  ring

/-- Paging through a list in chunks of `k` as `range(0, len, k)` does
reassembles the whole list. -/
theorem pyRange_flatMap_take_drop {α : Type} (k : Nat) (hk : 0 < k) :
    ∀ (n : Nat) (l : List α), l.length ≤ n →
      (pyRange 0 l.length k).flatMap (fun o => (l.drop o).take k) = l := by
  intro n
  induction n with
  | zero =>
    intro l hl
    have h0 : l = [] := List.eq_nil_of_length_eq_zero (by omega)
    subst h0
    unfold pyRange
    simp only [List.length_nil]
    rw [show (0 : Nat) - 0 + k - 1 = k - 1 from by omega, Nat.div_eq_of_lt (by omega)]
    rfl
  | succ n ih =>
    intro l hl
    cases l with
    | nil =>
      unfold pyRange
      simp only [List.length_nil]
      rw [show (0 : Nat) - 0 + k - 1 = k - 1 from by omega, Nat.div_eq_of_lt (by omega)]
      rfl
    | cons a l' =>
      rw [pyRange_zero_pos k _ hk (by simp)]
      simp only [List.flatMap_cons, List.drop_zero, List.flatMap_map]
      have hfun : (fun o => ((a :: l').drop (k + o)).take k) =
          (fun o => (((a :: l').drop k).drop o).take k) := by
        funext o
        rw [List.drop_drop, Nat.add_comm]
      rw [hfun]
      have hlen : ((a :: l').drop k).length = (a :: l').length - k := by
        rw [List.length_drop]
      rw [show (a :: l').length - k = ((a :: l').drop k).length from hlen.symm]
      rw [ih ((a :: l').drop k)
        (by rw [hlen]; simp only [List.length_cons] at hl ⊢; omega)]
      exact List.take_append_drop k (a :: l')

/-- C9 — confirmed.  `get_objects_by_object_types` issues one request
with `limit = 1` to read the total count, then pages with `limit =
1000` at offsets `0, 1000, 2000, …` below the count; against a
consistent endpoint (each page is the corresponding slice of the object
list and the count is its length) it returns exactly all objects. -/
theorem get_objects_by_object_types_spec (S : ObjectsEndpoint) (objs : List OOI)
    (hcount : S.count = objs.length)
    (hitems : ∀ off lim, S.items off lim = (objs.drop off).take lim) :
    (get_objects_by_object_types S).1 =
      (0, 1) :: (pyRange 0 S.count 1000).map (fun o => (o, 1000)) ∧
    (get_objects_by_object_types S).2 = objs := by
  constructor
  · rfl
  · show (pyRange 0 S.count 1000).flatMap (fun o => S.items o 1000) = objs
    rw [hcount]
    have hfun : (fun o => S.items o 1000) = (fun o => (objs.drop o).take 1000) :=
      funext fun o => hitems o 1000
    rw [hfun]
    exact pyRange_flatMap_take_drop 1000 (by norm_num) objs.length objs le_rfl

theorem get_objects_by_object_types_spec_witness :
    (get_objects_by_object_types
        ⟨2, fun off lim => (([⟨"a"⟩, ⟨"b"⟩] : List OOI).drop off).take lim⟩).1 =
      (0, 1) :: (pyRange 0 2 1000).map (fun o => (o, 1000)) ∧
    (get_objects_by_object_types
        ⟨2, fun off lim => (([⟨"a"⟩, ⟨"b"⟩] : List OOI).drop off).take lim⟩).2 =
      [⟨"a"⟩, ⟨"b"⟩] :=
  get_objects_by_object_types_spec
    ⟨2, fun off lim => (([⟨"a"⟩, ⟨"b"⟩] : List OOI).drop off).take lim⟩
    [⟨"a"⟩, ⟨"b"⟩] rfl (fun _ _ => rfl)

theorem push_with_timeout_amended_witness :
    ((∀ j, j < 2 → (fun l : Nat => decide (l ≥ 1)) j = false) → 2 < 9 →
        push_item_to_queue_with_timeout (fun l => decide (l ≥ 1)) ((2 : Nat) : Int) 9 =
          some .queue_full_error) ∧
    (1 < 2 → (fun l : Nat => decide (l ≥ 1)) 1 = true →
      (∀ j, j < 1 → (fun l : Nat => decide (l ≥ 1)) j = false) → 1 < 9 →
        push_item_to_queue_with_timeout (fun l => decide (l ≥ 1)) ((2 : Nat) : Int) 9 =
          some .pushed) ∧
    ((fun l : Nat => decide (l ≥ 1)) 1 = true →
      (∀ j, j < 1 → (fun l : Nat => decide (l ≥ 1)) j = false) → 1 < 9 →
        push_item_to_queue_with_timeout (fun l => decide (l ≥ 1)) (-1) 9 = some .pushed) ∧
    (push_item_to_queue_with_timeout (fun l => decide (l ≥ 1)) (-1) 9 ≠
      some .queue_full_error) :=
  push_with_timeout_amended (fun l => decide (l ≥ 1)) 2 1 9 (by decide)

end NLKat

example : NLKat.BoefjeRanker.rank 1000 100 [] = 2 := rfl
example : NLKat.BoefjeRanker.rank 1000 100 [⟨999⟩] = 857 := by
  unfold NLKat.BoefjeRanker.rank NLKat.tdSeconds NLKat.BoefjeRanker.max_days_in_seconds
    NLKat.BoefjeRanker.MAX_PRIORITY NLKat.BoefjeRanker.MAX_DAYS NLKat.pyInt
  norm_num
example : NLKat.BoefjeRanker.rank 604900 100 [⟨0⟩] = 1000 := by
  unfold NLKat.BoefjeRanker.rank NLKat.tdSeconds NLKat.BoefjeRanker.max_days_in_seconds
    NLKat.BoefjeRanker.MAX_PRIORITY NLKat.BoefjeRanker.MAX_DAYS NLKat.pyInt
  norm_num
